import Mathlib

/-!
Shallow embedding of the SpecSync change-to-specification pipeline.

Each definition below is a direct translation of a JavaScript function of the
repository into Lean:

* `LLMClient.generateMockSpec`, `LLMClient.parseLLMResponse`,
  `LLMClient.generateSpec` (src/llm-client.js) — specification synthesis with
  the deterministic fallback;
* `SpecCoverageTracker.compareWithSpec` (src/spec-coverage.js) — drift
  detection;
* `SpecAnalyzer.generateSpecSuggestion` (src/spec-analyzer.js) — caching;
* `Lean4Generator.generateHelperLemmas` together with `sanitizeName` and
  `convertToLeanPredicates` — the theorem-skeleton emitter;
* `ASTExtractor.calculateComplexity` / `createBasicAnalysis` over a model of
  tree-sitter parse trees — the control-flow extractor;
* `DiffParser.extractFunctions` / `determineChangeType` with an executable
  model of the JavaScript regular expressions of its pattern table — the diff
  segmenter.

JavaScript numbers holding the integer quantities of this code (complexity,
confidence, counters) are modelled as `Int`/`Nat`; IEEE doubles are exact on
these values, so no rounding is modelled.  JavaScript truthiness is modelled
where the code relies on it (absent/null fields as `Option.none`, the number
`0` and the empty string as falsy, arrays always truthy).
-/

namespace SpecSync

/-! ## Data model: specification records (src/llm-client.js) -/

/-- Element of `context.inputTypes` as consumed by `generateMockSpec`:
`type` and `required` may be absent on loosely-typed contexts, hence
`Option`. -/
structure MockInput where
  name : String
  type : Option String
  required : Option Bool
  deriving DecidableEq

/-- Element of `context.conditionalGuards`. -/
structure MockGuard where
  condition : String
  deriving DecidableEq

/-- Element of `context.earlyReturns`. -/
structure MockEarlyReturn where
  value : String
  deriving DecidableEq

/-- The fields of `context` destructured by `generateMockSpec`, with the
default values of the destructuring (`= []`, `= 1`). -/
structure MockContext where
  inputTypes : List MockInput := []
  conditionalGuards : List MockGuard := []
  earlyReturns : List MockEarlyReturn := []
  complexity : Int := 1
  deriving DecidableEq

/-- The `complexity` record `{time, space}` of a specification. -/
structure ComplexityEstimate where
  time : String
  space : String
  deriving DecidableEq

/-- The `security` record `{vulnerabilities, mitigations}`. -/
structure SecurityInfo where
  vulnerabilities : List String
  mitigations : List String
  deriving DecidableEq

/-- A specification record as returned by `LLMClient.generateSpec`
(`generateMockSpec` or a normalized backend response). -/
structure SpecOut where
  preconditions : List String
  postconditions : List String
  invariants : List String
  edgeCases : List String
  complexity : ComplexityEstimate
  security : SecurityInfo
  confidence : Int
  reasoning : String
  deriving DecidableEq

/-- JavaScript truthiness of `input.type` combined with the `!== 'any'`
check: `if (input.type && input.type !== 'any')`. -/
def typeIsUsable (t : Option String) : Bool :=
  match t with
  | some s => s != "" && s != "any"
  | none => false

/-- `LLMClient.generateMockSpec` (src/llm-client.js lines 247-311), the
deterministic fallback synthesizer, translated clause by clause. -/
def generateMockSpec (context : MockContext) : SpecOut :=
  -- one loop iteration per input: a type precondition when the type is
  -- truthy and not 'any', then a null precondition when `required !== false`
  let preconditions := context.inputTypes.flatMap fun input =>
    (if typeIsUsable input.type then
      [input.name ++ " is of type " ++ input.type.getD ""] else []) ++
    (if input.required != some false then
      [input.name ++ " is not null/undefined"] else [])
  -- one postcondition per early return whose `value` is truthy
  let postconditions := context.earlyReturns.flatMap fun earlyReturn =>
    if earlyReturn.value != "" then
      ["Function may return " ++ earlyReturn.value ++ " under certain conditions"]
    else []
  let invariants :=
    if context.complexity > 5 then ["Function maintains internal state consistency"] else []
  let edgeCases :=
    (context.conditionalGuards.map fun guard =>
      "Handle case where " ++ guard.condition ++ " is false") ++
    (if context.inputTypes.length > 0 then
      ["Handle empty/null input values", "Handle boundary conditions"] else [])
  { preconditions :=
      if preconditions.length > 0 then preconditions
      else ["No specific preconditions identified"]
    postconditions :=
      if postconditions.length > 0 then postconditions
      else ["Function completes execution"]
    invariants :=
      if invariants.length > 0 then invariants
      else ["No specific invariants identified"]
    edgeCases :=
      if edgeCases.length > 0 then edgeCases
      else ["Consider null/undefined inputs"]
    complexity :=
      { time := if context.complexity > 3 then "O(n)" else "O(1)", space := "O(1)" }
    security :=
      { vulnerabilities :=
          ["Potential input validation bypass", "Possible information disclosure"]
        mitigations :=
          ["Implement strict input validation", "Use parameterized queries",
           "Validate all inputs"] }
    confidence := min 85 (100 - context.complexity * 5)
    reasoning :=
      "Mock analysis of function with " ++ toString context.inputTypes.length ++
      " inputs, " ++ toString context.conditionalGuards.length ++
      " conditionals, and complexity " ++ toString context.complexity ++
      ". Advanced security and performance analysis included." }

/-- The empty object `{}` passed to `generateMockSpec` inside
`parseLLMResponse`: every destructured field takes its default. -/
def emptyMockContext : MockContext := {}

/-- A backend response after the JSON extraction of `parseLLMResponse`
succeeded: each JSON field may be absent (or `null`), hence `Option`. -/
structure ParsedResponse where
  preconditions : Option (List String)
  postconditions : Option (List String)
  invariants : Option (List String)
  edgeCases : Option (List String)
  complexity : Option ComplexityEstimate
  security : Option SecurityInfo
  confidence : Option Int
  reasoning : Option String
  deriving DecidableEq

/-- The mandatory-field check of `parseLLMResponse`:
`required.filter(field => !parsed[field]).length === 0`.  A present array is
always truthy (even when empty); a numeric `confidence` is truthy iff it is
nonzero (JavaScript `!0 === true`). -/
def requiredFieldsPresent (p : ParsedResponse) : Bool :=
  p.preconditions.isSome && p.postconditions.isSome &&
  p.invariants.isSome && p.edgeCases.isSome &&
  (match p.confidence with
   | some c => c != 0
   | none => false)

/-- `LLMClient.parseLLMResponse` (src/llm-client.js lines 209-240).  The
argument is the result of the JSON extraction (`none` when no JSON object was
found or `JSON.parse` threw).  A response failing the mandatory-field check
throws internally and is caught, yielding `generateMockSpec({})`. -/
def parseLLMResponse (raw : Option ParsedResponse) : SpecOut :=
  match raw with
  | some parsed =>
    if requiredFieldsPresent parsed then
      { preconditions := parsed.preconditions.getD []
        postconditions := parsed.postconditions.getD []
        invariants := parsed.invariants.getD []
        edgeCases := parsed.edgeCases.getD []
        complexity := parsed.complexity.getD { time := "O(1)", space := "O(1)" }
        security := parsed.security.getD { vulnerabilities := [], mitigations := [] }
        -- `typeof parsed.confidence === 'number' ? parsed.confidence : 50`
        confidence := parsed.confidence.getD 50
        -- `parsed.reasoning || 'Generated by LLM'`
        reasoning :=
          match parsed.reasoning with
          | some r => if r != "" then r else "Generated by LLM"
          | none => "Generated by LLM" }
    else generateMockSpec emptyMockContext
  | none => generateMockSpec emptyMockContext

/-- Behaviour of one configured backend client when invoked: the call either
throws (transport error, timeout) or yields a raw response, which the JSON
extraction step turns into `Option ParsedResponse`. -/
inductive BackendResult where
  | throws
  | responds (raw : Option ParsedResponse)
  deriving DecidableEq

/-- Which clients are configured in `LLMClient` (set by `initializeClients`
from the presence of API keys), and how each behaves when invoked. -/
structure LLMConfig where
  openai : Option BackendResult
  anthropic : Option BackendResult
  deriving DecidableEq

/-- Identifier of a generative backend, used to record invocations. -/
inductive BackendId where
  | openai
  | anthropic
  deriving DecidableEq

/-- Outcome of invoking one backend client: `generateWithOpenAI` /
`generateWithAnthropic` either throw — caught by the `try` of `generateSpec`,
which then returns `generateMockSpec(context)` — or return
`parseLLMResponse` of the raw content. -/
def invokeBackend (r : BackendResult) (context : MockContext) : SpecOut :=
  match r with
  | .throws => generateMockSpec context
  | .responds raw => parseLLMResponse raw

/-- `LLMClient.generateSpec` (src/llm-client.js lines 43-57): an if/else on
client existence (`if (this.openai) ... else if (this.anthropic) ... else
mock`), wrapped in a try/catch whose handler returns the mock spec.  The
second component records which backends were actually invoked, in order. -/
def generateSpec (cfg : LLMConfig) (context : MockContext) :
    SpecOut × List BackendId :=
  match cfg.openai with
  | some r => (invokeBackend r context, [BackendId.openai])
  | none =>
    match cfg.anthropic with
    | some r => (invokeBackend r context, [BackendId.anthropic])
    | none => (generateMockSpec context, [])

/-! ## Drift detection (src/spec-coverage.js) -/

/-- Result of `analyzeCurrentImplementation`: the coarse current
fingerprint. -/
structure CurrentAnalysis where
  complexity : Nat
  hasValidation : Bool
  hasReturn : Bool
  lines : Nat
  deriving DecidableEq

/-- The fields of a previously stored specification record read by
`compareWithSpec`. -/
structure StoredSpec where
  complexity : Nat
  hasValidation : Bool
  deriving DecidableEq

/-- The drift object built by `compareWithSpec`. -/
structure DriftOut where
  hasDrift : Bool
  details : List String
  confidence : Nat
  deriving DecidableEq

/-- `SpecCoverageTracker.compareWithSpec` (src/spec-coverage.js lines
643-667).  The float comparison `current.complexity > spec.complexity * 1.5`
is exact on the integer complexities this code produces, and is rendered as
`2 * current > 3 * spec`. -/
def compareWithSpec (current : CurrentAnalysis) (spec : StoredSpec) : DriftOut :=
  let drift : DriftOut := { hasDrift := false, details := [], confidence := 0 }
  let drift :=
    if 2 * current.complexity > 3 * spec.complexity then
      { drift with
        hasDrift := true
        details := drift.details ++ ["Function complexity increased significantly"] }
    else drift
  let drift :=
    if current.hasValidation != spec.hasValidation then
      { drift with
        hasDrift := true
        details := drift.details ++ ["Input validation patterns changed"] }
    else drift
  { drift with confidence := min 100 (drift.details.length * 25) }

/-! ## Specification cache (src/spec-analyzer.js) -/

/-- The record assembled by `generateSpecSuggestion` from the LLM output;
the `|| []` / `|| 0` / `|| ''` defaults are identities here because
`generateSpec` always returns every field. -/
structure Suggestion where
  functionName : String
  filePath : String
  lineNumber : Nat
  preconditions : List String
  postconditions : List String
  invariants : List String
  edgeCases : List String
  confidence : Int
  reasoning : String
  deriving DecidableEq

/-- The fields of one AST analysis consumed by `generateSpecSuggestion`. -/
structure AnalysisInput where
  functionName : String
  filePath : String
  lineNumber : Nat
  deriving DecidableEq

/-- `SpecAnalyzer.generateSpecSuggestion` (src/spec-analyzer.js lines 40-71).
`llm` stands for `callLLM(prepareLLMContext(analysis))`, the generative call;
the cache is the `specCache` map, modelled as an association list whose
lookup takes the most recent binding (as `Map.set` overwrites).  The third
component counts backend invocations made by this call. -/
def generateSpecSuggestion (llm : AnalysisInput → SpecOut)
    (cache : List (String × Suggestion)) (analysis : AnalysisInput) :
    Suggestion × List (String × Suggestion) × Nat :=
  let cacheKey := analysis.filePath ++ ":" ++ analysis.functionName
  match cache.lookup cacheKey with
  | some cached => (cached, cache, 0)
  | none =>
    let spec := llm analysis
    let suggestion : Suggestion :=
      { functionName := analysis.functionName
        filePath := analysis.filePath
        lineNumber := analysis.lineNumber
        preconditions := spec.preconditions
        postconditions := spec.postconditions
        invariants := spec.invariants
        edgeCases := spec.edgeCases
        confidence := spec.confidence
        reasoning := spec.reasoning }
    (suggestion, (cacheKey, suggestion) :: cache, 1)

/-! ## Theorem-skeleton emitter (src Lean4Generator) -/

/-- The character class `\w` = `[A-Za-z0-9_]` of the JavaScript regular
expressions. -/
def isWordChar (c : Char) : Bool :=
  c.isAlphanum || c == '_'

/-- One character of `name.replace(/[^a-zA-Z0-9_]/g, '_')`. -/
def sanitizeChar (c : Char) : Char :=
  if c.isAlphanum || c == '_' then c else '_'

/-- `.replace(/_+/g, '_')`: collapse each run of underscores to one. -/
def collapseUnderscores (l : List Char) : List Char :=
  (l.foldl
    (fun acc c =>
      if c == '_' then (if acc.2 then acc else (acc.1 ++ ['_'], true))
      else (acc.1 ++ [c], false))
    (([] : List Char), false)).1

/-- `.replace(/^_|_$/g, '')`: drop one leading and one trailing underscore. -/
def stripEdgeUnderscores (l : List Char) : List Char :=
  let l := if l.head? == some '_' then l.tail else l
  if l.getLast? == some '_' then l.dropLast else l

/-- `Lean4Generator.sanitizeName`: replace non-identifier characters with
underscores, collapse runs, strip the edges, lowercase. -/
def sanitizeName (name : String) : String :=
  String.mk ((stripEdgeUnderscores (collapseUnderscores
    (name.data.map sanitizeChar))).map Char.toLower)

/-- One left-to-right scan applying `step` at each position, as a global
JavaScript regex replace does: when `step` matches (consuming at least one
character) its output is emitted and scanning resumes after the match,
otherwise one character is copied.  `fuel` bounds the recursion; callers pass
the input length, which suffices because every step consumes a character. -/
def scanReplace (step : List Char → Option (List Char × List Char)) :
    Nat → List Char → List Char
  | 0, l => l
  | _ + 1, [] => []
  | fuel + 1, c :: cs =>
    match step (c :: cs) with
    | some (out, rest) => out ++ scanReplace step fuel rest
    | none => c :: scanReplace step fuel cs

/-- Run a scan step over a string. -/
def runScan (step : List Char → Option (List Char × List Char))
    (s : String) : String :=
  String.mk (scanReplace step s.length s.data)

/-- Match a regex of shape `pre(\w+)` (e.g. `/is of type (\w+)/`): the
literal prefix, then a nonempty word run, rewritten by `mk`. -/
def stepLiteralCapture (pre : String) (mk : List Char → List Char)
    (l : List Char) : Option (List Char × List Char) :=
  if pre.data.isPrefixOf l then
    let r := l.drop pre.length
    let w := r.takeWhile isWordChar
    if w.isEmpty then none else some (mk w, r.drop w.length)
  else none

/-- Match a regex of shape `(\w+)suf` (e.g. `/(\w+)\.length > 0/`): a
nonempty word run followed by the literal suffix, rewritten by `mk`.  A word
run is maximal, and the literal suffix starts with a non-word character in
every use below, so no regex backtracking is lost. -/
def stepCaptureLiteral (suf : String) (mk : List Char → List Char)
    (l : List Char) : Option (List Char × List Char) :=
  let w := l.takeWhile isWordChar
  if w.isEmpty then none
  else
    let r := l.drop w.length
    if suf.data.isPrefixOf r then some (mk w, r.drop suf.length) else none

/-- `Lean4Generator.convertToLeanPredicates` applied to one predicate: the
fixed chain of textual rewrites, in source order. -/
def convertPredicate (predicate : String) : String :=
  let leanPred := predicate
  -- null/undefined checks
  let leanPred := leanPred.replace "is not null/undefined" "≠ none"
  let leanPred := leanPred.replace "is null/undefined" "= none"
  -- type checks: /is of type (\w+)/g → ': $1'
  let leanPred := runScan (stepLiteralCapture "is of type "
    (fun w => ": ".data ++ w)) leanPred
  -- comparisons: the `> 0` and `< 0` rules rewrite each match to itself
  let leanPred := runScan (stepCaptureLiteral " > 0"
    (fun w => w ++ " > 0".data)) leanPred
  let leanPred := runScan (stepCaptureLiteral " < 0"
    (fun w => w ++ " < 0".data)) leanPred
  let leanPred := runScan (stepCaptureLiteral " >= 0"
    (fun w => w ++ " ≥ 0".data)) leanPred
  let leanPred := runScan (stepCaptureLiteral " <= 0"
    (fun w => w ++ " ≤ 0".data)) leanPred
  -- string operations
  let leanPred := runScan (stepCaptureLiteral ".length > 0"
    (fun w => "¬(".data ++ w ++ " = \"\")".data)) leanPred
  let leanPred := runScan (stepCaptureLiteral ".length === 0"
    (fun w => w ++ " = \"\"".data)) leanPred
  -- boolean operations
  let leanPred := leanPred.replace "is true" "= true"
  let leanPred := leanPred.replace "is false" "= false"
  -- function calls: /(\w+)\(/g → '$1 '
  let leanPred := runScan (stepCaptureLiteral "(" (fun w => w ++ " ".data)) leanPred
  leanPred

/-- `Lean4Generator.convertToLeanPredicates`. -/
def convertToLeanPredicates (predicates : List String) : List String :=
  predicates.map convertPredicate

/-- `Lean4Generator.generateHelperLemmas` (lines 233-255): one lemma per
invariant, then one per edge case.  `convertToLeanPredicates [x]` is a
singleton, so the `[0]` index of the source is its head. -/
def generateHelperLemmas (invariants edgeCases : List String) : List String :=
  (invariants.enum.map fun p =>
    "lemma invariant_" ++ toString (p.1 + 1) ++ "_" ++ sanitizeName p.2 ++
      " : " ++ (convertToLeanPredicates [p.2]).headD "" ++ " := sorry") ++
  (edgeCases.enum.map fun p =>
    "lemma edge_case_" ++ toString (p.1 + 1) ++ "_" ++ sanitizeName p.2 ++
      " : " ++ (convertToLeanPredicates [p.2]).headD "" ++ " := sorry")

/-! ## Control-flow extractor (src ASTExtractor) -/

/-- A tree-sitter parse node: a type tag, source text, start row, and the
ordered child nodes, each optionally bound to a field name
(`childForFieldName` looks children up by that name). -/
inductive Node where
  | mk (ty : String) (text : String) (row : Nat)
       (children : List (Option String × Node))

/-- The `type` of a node. -/
def Node.ty : Node → String
  | .mk t _ _ _ => t

/-- The `text` of a node. -/
def Node.text : Node → String
  | .mk _ s _ _ => s

/-- The `startPosition.row` of a node. -/
def Node.row : Node → Nat
  | .mk _ _ r _ => r

/-- The `children` array of a node (field-bound children included, as in
tree-sitter). -/
def Node.children : Node → List (Option String × Node)
  | .mk _ _ _ cs => cs

/-- `node.childForFieldName(f)`: the first child bound to field `f`. -/
def Node.childForFieldName (n : Node) (f : String) : Option Node :=
  (n.children.find? (fun c => c.1 == some f)).map (fun c => c.2)

mutual

/-- `ASTExtractor.findNodesByType`: collect, in pre-order, every descendant
(the node itself included) whose type is in `types`. -/
def findNodesByType (node : Node) (types : List String) : List Node :=
  match node with
  | .mk ty text row children =>
    (if types.contains ty then [Node.mk ty text row children] else []) ++
    findNodesInChildren children types

/-- The `for (const child of node.children)` loop of `findNodesByType`. -/
def findNodesInChildren (children : List (Option String × Node))
    (types : List String) : List Node :=
  match children with
  | [] => []
  | c :: rest => findNodesByType c.2 types ++ findNodesInChildren rest types

end

mutual

/-- The return statements collected by `extractEarlyReturns`: those
`return_statement` nodes whose index among their parent's children is not the
last (`returnIndex < siblings.length - 1`).  The JavaScript `indexOf` is by
object identity, which is the positional index carried here; the root node,
whose siblings are outside the subtree, is never collected (it is a function
node, not a `return_statement`). -/
def earlyReturnNodes (isEarly : Bool) (node : Node) : List Node :=
  match node with
  | .mk ty text row children =>
    (if ty == "return_statement" && isEarly then [Node.mk ty text row children]
     else []) ++
    earlyReturnNodesInChildren children.length 0 children

/-- Child traversal for `earlyReturnNodes`, tracking each child's index. -/
def earlyReturnNodesInChildren (total idx : Nat)
    (children : List (Option String × Node)) : List Node :=
  match children with
  | [] => []
  | c :: rest =>
    earlyReturnNodes (idx + 1 < total) c.2 ++
    earlyReturnNodesInChildren total (idx + 1) rest

end

/-- One entry of the `conditionalGuards` array. -/
structure ExtractedGuard where
  gtype : String
  condition : String
  lineNumber : Nat
  deriving DecidableEq

/-- One entry of the `loops` array. -/
structure ExtractedLoop where
  ltype : String
  condition : String
  lineNumber : Nat
  deriving DecidableEq

/-- One entry of the `earlyReturns` array. -/
structure ExtractedEarlyReturn where
  value : String
  lineNumber : Nat
  deriving DecidableEq

/-- One entry of the `branching` array. -/
structure ExtractedBranch where
  btype : String
  condition : String
  lineNumber : Nat
  deriving DecidableEq

/-- One entry of the `inputTypes` array built by `extractInputTypes`. -/
structure ExtractedParam where
  name : String
  type : String
  required : Bool
  deriving DecidableEq

/-- `ASTExtractor.getReturnValue`. -/
def getReturnValue (returnNode : Node) : String :=
  match returnNode.childForFieldName "value" with
  | some v => v.text
  | none =>
    match returnNode.children.find?
        (fun c => c.2.ty == "expression" || c.2.ty == "identifier") with
    | some c => c.2.text
    | none => ""

/-- `ASTExtractor.getLoopCondition`. -/
def getLoopCondition (loopNode : Node) : String :=
  match loopNode.childForFieldName "condition" with
  | some c => c.text
  | none =>
    match loopNode.children.find?
        (fun c => c.2.ty == "condition" || c.2.ty == "test") with
    | some c => c.2.text
    | none => ""

/-- `ASTExtractor.extractConditionalGuards`: one guard per `if_statement`
that has a `condition` field. -/
def extractConditionalGuards (functionNode : Node) : List ExtractedGuard :=
  (findNodesByType functionNode ["if_statement"]).filterMap fun ifStmt =>
    (ifStmt.childForFieldName "condition").map fun condition =>
      { gtype := "if", condition := condition.text, lineNumber := condition.row }

/-- The loop node types scanned by `extractLoops`. -/
def loopNodeTypes : List String :=
  ["for_statement", "while_statement", "do_statement", "for_in_statement"]

/-- `ASTExtractor.extractLoops`: one entry per loop node, grouped by loop
type as in the source's outer loop. -/
def extractLoops (functionNode : Node) : List ExtractedLoop :=
  loopNodeTypes.flatMap fun loopType =>
    (findNodesByType functionNode [loopType]).map fun loop =>
      { ltype := loopType, condition := getLoopCondition loop,
        lineNumber := loop.row }

/-- `ASTExtractor.extractEarlyReturns`. -/
def extractEarlyReturns (functionNode : Node) : List ExtractedEarlyReturn :=
  (earlyReturnNodes false functionNode).map fun r =>
    { value := getReturnValue r, lineNumber := r.row }

/-- `ASTExtractor.calculateComplexity` (lines 1276-1289): base 1, plus one
per conditional, loop, and early return. -/
def calculateComplexity (functionNode : Node) : Nat :=
  let complexity := 1
  let complexity := complexity + (extractConditionalGuards functionNode).length
  let complexity := complexity + (extractLoops functionNode).length
  let complexity := complexity + (extractEarlyReturns functionNode).length
  complexity

/-- The `controlFlow` record of an analysis. -/
structure ControlFlowInfo where
  hasEarlyReturns : Bool
  hasLoops : Bool
  hasConditionals : Bool
  hasBranching : Bool
  maxDepth : Nat
  deriving DecidableEq

/-- The `ast` record of an analysis result. -/
structure AstInfo where
  inputTypes : List ExtractedParam
  outputType : String
  conditionalGuards : List ExtractedGuard
  loops : List ExtractedLoop
  branching : List ExtractedBranch
  earlyReturns : List ExtractedEarlyReturn
  controlFlow : ControlFlowInfo
  complexity : Nat
  deriving DecidableEq

/-- A FunctionChange as produced by the diff parser and consumed by the
extractor (`comments` and `testFiles`, which involve file-system access, are
not modelled). -/
structure FunctionChange where
  filePath : String
  functionName : String
  functionBody : String
  lineNumber : Nat
  changeType : String
  deriving DecidableEq

/-- An analysis result: the change spread together with its `ast`. -/
structure Analysis where
  change : FunctionChange
  ast : AstInfo
  deriving DecidableEq

/-- `ASTExtractor.createBasicAnalysis` (lines 1312-1332): the degraded
result used when the file cannot be parsed, the language is unknown, or the
function node cannot be located. -/
def createBasicAnalysis (change : FunctionChange) : Analysis :=
  { change := change
    ast :=
      { inputTypes := []
        outputType := "any"
        conditionalGuards := []
        loops := []
        branching := []
        earlyReturns := []
        controlFlow :=
          { hasEarlyReturns := false
            hasLoops := false
            hasConditionals := false
            hasBranching := false
            maxDepth := 1 }
        complexity := 1 } }

/-! ## Diff segmenter (src DiffParser)

The function-start signatures of `extractFunctions` are JavaScript regular
expressions.  They are modelled by an executable matcher over a small element
language covering exactly the constructs those eight patterns use, with
JavaScript backtracking order: greedy repetition tried longest first, an
optional group tried before its empty alternative, alternation tried left to
right. -/

/-- The character class `\s` (ASCII part) of the patterns. -/
def isSpaceChar (c : Char) : Bool :=
  c == ' ' || c == '\t' || c == '\n' || c == '\r' || c == '\x0b' || c == '\x0c'

/-- Remainders after `\s*` (`allowEmpty = true`) or `\s+`
(`allowEmpty = false`), longest consumed first. -/
def spaceAlts (l : List Char) (allowEmpty : Bool) : List (List Char) :=
  let k := (l.takeWhile isSpaceChar).length
  let ds := (List.range (k + 1)).map (fun i => l.drop (k - i))
  if allowEmpty then ds else ds.dropLast

/-- Splits `(word, rest)` after a nonempty word run `\w+`, longest first. -/
def wordAlts (l : List Char) : List (List Char × List Char) :=
  let k := (l.takeWhile isWordChar).length
  (List.range k).map (fun i => (l.take (k - i), l.drop (k - i)))

/-- Remainder after a literal, if it is a prefix. -/
def litRem (s : String) (l : List Char) : List (List Char) :=
  if s.data.isPrefixOf l then [l.drop s.length] else []

/-- One element of a function-start pattern. -/
inductive RElem where
  /-- `\s*` -/
  | ws0
  /-- `\s+` -/
  | ws1
  /-- a literal -/
  | lit (s : String)
  /-- `(?:a|b|…)` over literals -/
  | altOf (ss : List String)
  /-- `(?:(?:a|b|…)\s+)?` -/
  | optAltWs1 (ss : List String)
  /-- `(?:a|b|…)?` -/
  | optAlt (ss : List String)
  /-- `(?:<[^>]+>\s+)?` of the Java pattern -/
  | optGeneric
  /-- a non-capturing `\w+` -/
  | word1
  /-- the capturing `(\w+)` group -/
  | capture
  /-- `[:=]` -/
  | colonEq
  /-- `(?:\s*\*)?` of the C pattern -/
  | optStar

/-- Remainders after one pattern element, in backtracking preference order
(`capture` is handled by `matchElems`). -/
def runElem : RElem → List Char → List (List Char)
  | .ws0, l => spaceAlts l true
  | .ws1, l => spaceAlts l false
  | .lit s, l => litRem s l
  | .altOf ss, l => ss.flatMap (fun s => litRem s l)
  | .optAlt ss, l => ss.flatMap (fun s => litRem s l) ++ [l]
  | .optAltWs1 ss, l =>
    (ss.flatMap fun s =>
      if s.data.isPrefixOf l then spaceAlts (l.drop s.length) false else []) ++ [l]
  | .optGeneric, l =>
    (match l with
     | '<' :: rest =>
       let body := rest.takeWhile (fun c => c != '>')
       if body.isEmpty then []
       else
         match rest.drop body.length with
         | '>' :: rest2 => spaceAlts rest2 false
         | _ => []
     | _ => []) ++ [l]
  | .word1, l => (wordAlts l).map (fun p => p.2)
  | .capture, _ => []
  | .colonEq, l =>
    match l with
    | ':' :: rest => [rest]
    | '=' :: rest => [rest]
    | _ => []
  | .optStar, l =>
    ((spaceAlts l true).flatMap fun r =>
      match r with
      | '*' :: rest => [rest]
      | _ => []) ++ [l]

/-- Match a sequence of pattern elements against the input, returning the
`(\w+)` capture of the first successful alternative in backtracking order.
Every pattern below contains exactly one `capture`, so success and failure
are distinguished by the result's presence. -/
def matchElems : List RElem → List Char → Option String → Option String
  | [], _, cap => cap
  | RElem.capture :: rest, l, _ =>
    (wordAlts l).findSome? fun p => matchElems rest p.2 (some (String.mk p.1))
  | e :: rest, l, cap =>
    (runElem e l).findSome? fun r => matchElems rest r cap

/-- `^(\+|\-)?` : the change-marker group, preferred over its empty
alternative. -/
def markerAlts (l : List Char) : List (Option String × List Char) :=
  (match l with
   | '+' :: rest => [(some "+", rest)]
   | _ => []) ++
  (match l with
   | '-' :: rest => [(some "-", rest)]
   | _ => []) ++
  [(none, l)]

/-- JavaScript/TypeScript function declaration:
`^(\+|\-)?\s*(?:export\s+)?(?:async\s+)?function\s+(\w+)\s*\(`. -/
def patternBody1 : List RElem :=
  [.ws0, .optAltWs1 ["export"], .optAltWs1 ["async"], .lit "function", .ws1,
   .capture, .ws0, .lit "("]

/-- Arrow/function expression bound by declaration:
`^(\+|\-)?\s*(?:export\s+)?(?:const|let|var)\s+(\w+)\s*=\s*(?:async\s+)?\(`. -/
def patternBody2 : List RElem :=
  [.ws0, .optAltWs1 ["export"], .altOf ["const", "let", "var"], .ws1,
   .capture, .ws0, .lit "=", .ws0, .optAltWs1 ["async"], .lit "("]

/-- Object-literal method / property function:
`^(\+|\-)?\s*(?:export\s+)?(\w+)\s*[:=]\s*(?:async\s+)?\(`. -/
def patternBody3 : List RElem :=
  [.ws0, .optAltWs1 ["export"], .capture, .ws0, .colonEq, .ws0,
   .optAltWs1 ["async"], .lit "("]

/-- Python: `^(\+|\-)?\s*def\s+(\w+)\s*\(`. -/
def patternBody4 : List RElem :=
  [.ws0, .lit "def", .ws1, .capture, .ws0, .lit "("]

/-- Java: `^(\+|\-)?\s*(?:public|private|protected)?\s*(?:static\s+)?`
`(?:final\s+)?(?:<[^>]+>\s+)?\w+\s+(\w+)\s*\(`. -/
def patternBody5 : List RElem :=
  [.ws0, .optAlt ["public", "private", "protected"], .ws0,
   .optAltWs1 ["static"], .optAltWs1 ["final"], .optGeneric, .word1, .ws1,
   .capture, .ws0, .lit "("]

/-- Go: `^(\+|\-)?\s*func\s+(\w+)\s*\(`. -/
def patternBody6 : List RElem :=
  [.ws0, .lit "func", .ws1, .capture, .ws0, .lit "("]

/-- Rust: `^(\+|\-)?\s*fn\s+(\w+)\s*\(`. -/
def patternBody7 : List RElem :=
  [.ws0, .lit "fn", .ws1, .capture, .ws0, .lit "("]

/-- C/C++: `^(\+|\-)?\s*(?:static\s+)?(?:inline\s+)?(?:const\s+)?`
`\w+(?:\s*\*)?\s+(\w+)\s*\(`. -/
def patternBody8 : List RElem :=
  [.ws0, .optAltWs1 ["static"], .optAltWs1 ["inline"], .optAltWs1 ["const"],
   .word1, .optStar, .ws1, .capture, .ws0, .lit "("]

/-- The `functionPatterns` table of `extractFunctions`, in source order. -/
def functionPatterns : List (List RElem) :=
  [patternBody1, patternBody2, patternBody3, patternBody4, patternBody5,
   patternBody6, patternBody7, patternBody8]

/-- `line.match(pattern)` for one pattern: the change marker `match[1]` and
the function name `match[2]`. -/
def matchPattern (body : List RElem) (line : String) :
    Option (Option String × String) :=
  (markerAlts line.data).findSome? fun m =>
    (matchElems body m.2 none).map fun name => (m.1, name)

/-- The inner `for (const pattern of functionPatterns)` loop: the first
matching pattern wins. -/
def matchAnyPattern (line : String) : Option (Option String × String) :=
  functionPatterns.findSome? fun body => matchPattern body line

/-- A function capture as built by `extractFunctions` (its `changeType` is
the raw `match[1] || 'modified'`, refined later by `determineChangeType`). -/
structure ExtractedFunction where
  name : String
  body : String
  lineNumber : Nat
  changeType : String
  deriving DecidableEq

/-- The mutable state of the `extractFunctions` line loop. -/
structure ScanState where
  functions : List ExtractedFunction
  currentFunction : Option ExtractedFunction
  braceCount : Int
  inFunction : Bool

/-- `DiffParser.countBraces`: net count of `{` minus `}`. -/
def countBraces (line : String) : Int :=
  ((line.data.filter (fun c => c == '\x7b')).length : Int) -
  ((line.data.filter (fun c => c == '\x7d')).length : Int)

/-- `split('\n')`. -/
def splitLinesAux : List Char → List Char → List String
  | [], acc => [String.mk acc.reverse]
  | '\n' :: rest, acc => String.mk acc.reverse :: splitLinesAux rest []
  | c :: rest, acc => splitLinesAux rest (c :: acc)

/-- JavaScript `str.split('\n')`. -/
def splitLines (s : String) : List String :=
  splitLinesAux s.data []

/-- JavaScript `str.trim()` (ASCII whitespace). -/
def trimString (s : String) : String :=
  String.mk ((s.data.dropWhile isSpaceChar).reverse.dropWhile isSpaceChar).reverse

/-- JavaScript `str.startsWith(p)`. -/
def strStartsWith (s p : String) : Bool :=
  p.data.isPrefixOf s.data

/-- One iteration of the `extractFunctions` line loop: open a capture on a
pattern match (pushing any capture still open), then append the line to the
open capture, update the brace balance, and close the capture when the
balance is zero on a nonblank line. -/
def extractFunctionsStep (state : ScanState) (entry : Nat × String) :
    ScanState :=
  let i := entry.1
  let line := entry.2
  let state : ScanState :=
    match matchAnyPattern line with
    | some m =>
      { functions := state.functions ++ state.currentFunction.toList
        currentFunction := some
          { name := m.2
            body := line
            lineNumber := i + 1
            changeType := m.1.getD "modified" }
        braceCount := countBraces line
        inFunction := true }
    | none => state
  match state.currentFunction, state.inFunction with
  | some cf, true =>
    let cf := { cf with body := cf.body ++ "\n" ++ line }
    let bc := state.braceCount + countBraces line
    if bc == 0 && trimString line != "" then
      { functions := state.functions ++ [cf]
        currentFunction := none
        braceCount := bc
        inFunction := false }
    else
      { state with currentFunction := some cf, braceCount := bc }
  | _, _ => state

/-- `DiffParser.extractFunctions` (lines 673-742). -/
def extractFunctions (fileDiff : String) : List ExtractedFunction :=
  let lines := splitLines fileDiff
  let final := lines.enum.foldl extractFunctionsStep
    { functions := []
      currentFunction := none
      braceCount := 0
      inFunction := false }
  final.functions ++ final.currentFunction.toList

/-- `DiffParser.determineChangeType` (lines 760-774). -/
def determineChangeType (func : ExtractedFunction) : String :=
  let lines := splitLines func.body
  let hasAdded := lines.any (fun line => strStartsWith line "+")
  let hasRemoved := lines.any (fun line => strStartsWith line "-")
  if hasAdded && hasRemoved then "modified"
  else if hasAdded then "added"
  else if hasRemoved then "removed"
  else "modified"

/-! ## Theorems -/

/-- Claim C1 (counterexample): on an input with exactly 3 required numeric
parameters, no early returns, and complexity 1, the deterministic fallback
yields 6 preconditions, not 3 — each typed required parameter contributes
both a type precondition and a non-null precondition. -/
theorem scenarioA_counterexample :
    (generateMockSpec
      { inputTypes :=
          [{ name := "a", type := some "number", required := some true },
           { name := "b", type := some "number", required := some true },
           { name := "c", type := some "number", required := some true }]
        conditionalGuards := []
        earlyReturns := []
        complexity := 1 }).preconditions.length = 6 ∧
    (generateMockSpec
      { inputTypes :=
          [{ name := "a", type := some "number", required := some true },
           { name := "b", type := some "number", required := some true },
           { name := "c", type := some "number", required := some true }]
        conditionalGuards := []
        earlyReturns := []
        complexity := 1 }).preconditions.length ≠ 3 := by
  decide

/-- Claim C1 (amended): for the deterministic fallback synthesizer, an input
with exactly 3 required numeric parameters (any names), no early returns,
and complexity 1 yields a record with exactly 6 preconditions — two per
parameter — and confidence min(85, 100 − 5) = 85. -/
theorem scenarioA_amended (a b c : String) :
    (generateMockSpec
      { inputTypes :=
          [{ name := a, type := some "number", required := some true },
           { name := b, type := some "number", required := some true },
           { name := c, type := some "number", required := some true }]
        conditionalGuards := []
        earlyReturns := []
        complexity := 1 }).preconditions.length = 6 ∧
    (generateMockSpec
      { inputTypes :=
          [{ name := a, type := some "number", required := some true },
           { name := b, type := some "number", required := some true },
           { name := c, type := some "number", required := some true }]
        conditionalGuards := []
        earlyReturns := []
        complexity := 1 }).confidence = 85 := by
  constructor <;> simp [generateMockSpec, typeIsUsable]

/-- Claim C2 (counterexample): synthesizer-produced confidence is not always
in [0,100].  With no configured backend and complexity 21 the fallback
yields confidence min(85, 100 − 105) = −5 < 0; and a backend response with
confidence 150 passes the mandatory-field check and is returned unclamped. -/
theorem confidence_clamp_counterexample :
    (generateSpec { openai := none, anthropic := none }
      { complexity := 21 }).1.confidence < 0 ∧
    (generateSpec
      { openai := some (.responds (some
          { preconditions := some []
            postconditions := some []
            invariants := some []
            edgeCases := some []
            complexity := none
            security := none
            confidence := some 150
            reasoning := none }))
        anthropic := none } {}).1.confidence = 150 := by
  decide

/-- Claim C2 (amended): the fallback confidence min(85, 100 − 5·complexity)
lies in [0,100] whenever the complexity lies in [0,20]; outside that range,
and on the backend path (whose numeric confidence is passed through without
clamping), confidence can leave [0,100]. -/
theorem mock_conf_clamped_amended (ctx : MockContext)
    (h1 : 0 ≤ ctx.complexity) (h2 : ctx.complexity ≤ 20) :
    0 ≤ (generateMockSpec ctx).confidence ∧
    (generateMockSpec ctx).confidence ≤ 100 := by
  unfold generateMockSpec
  dsimp only
  omega

/-- Witness for C2 (amended) at the default context (complexity 1). -/
theorem mock_conf_clamped_amended_witness :
    (0 : Int) ≤ ({} : MockContext).complexity ∧
    ({} : MockContext).complexity ≤ 20 ∧
    (0 ≤ (generateMockSpec {}).confidence ∧
     (generateMockSpec {}).confidence ≤ 100) :=
  ⟨by decide, by decide, mock_conf_clamped_amended {} (by decide) (by decide)⟩

/-- Claim C3 (counterexample): with two configured backends where backend A
(openai) throws and backend B (anthropic) would return a response missing
the confidence field, control does not move to backend B — only backend A is
ever invoked (`generateSpec` is an if/else on client existence whose catch
returns the fallback directly). -/
theorem backend_throw_counterexample :
    (generateSpec
      { openai := some .throws
        anthropic := some (.responds (some
          { preconditions := some []
            postconditions := some []
            invariants := some []
            edgeCases := some []
            complexity := none
            security := none
            confidence := none
            reasoning := none })) }
      {}).2 = [BackendId.openai] ∧
    BackendId.anthropic ∉
      (generateSpec
        { openai := some .throws
          anthropic := some (.responds (some
            { preconditions := some []
              postconditions := some []
              invariants := some []
              edgeCases := some []
              complexity := none
              security := none
              confidence := none
              reasoning := none })) }
        {}).2 := by
  exact ⟨rfl, by decide⟩

/-- Claim C3 (amended): when the first (and only selected) backend throws,
synthesis terminates directly at the deterministic fallback without invoking
any further backend; separately, a selected backend whose response omits the
confidence field is rejected in favour of the fallback record. -/
theorem backend_throw_amended :
    (∀ (anth : Option BackendResult) (ctx : MockContext),
      generateSpec { openai := some .throws, anthropic := anth } ctx =
        (generateMockSpec ctx, [BackendId.openai])) ∧
    (∀ (pre post inv ec : List String) (cx : Option ComplexityEstimate)
        (sec : Option SecurityInfo) (rsn : Option String),
      parseLLMResponse (some
        { preconditions := some pre
          postconditions := some post
          invariants := some inv
          edgeCases := some ec
          complexity := cx
          security := sec
          confidence := none
          reasoning := rsn }) = generateMockSpec emptyMockContext) := by
  exact ⟨fun _ _ => rfl, fun _ _ _ _ _ _ _ => rfl⟩

/-- Claim C4: the theorem-skeleton emitter emits exactly one helper lemma
per invariant and per edge case — N invariants and M edge cases yield
exactly N+M helper lemmas, in particular 2 and 3 yield 5. -/
theorem helper_lemma_count :
    (∀ invariants edgeCases : List String,
      (generateHelperLemmas invariants edgeCases).length =
        invariants.length + edgeCases.length) ∧
    (generateHelperLemmas ["inv1", "inv2"] ["edge1", "edge2", "edge3"]).length = 5 := by
  have h : ∀ invariants edgeCases : List String,
      (generateHelperLemmas invariants edgeCases).length =
        invariants.length + edgeCases.length := by
    intro invariants edgeCases
    simp [generateHelperLemmas, List.enum_length]
  exact ⟨h, by rw [h]; rfl⟩

/-- Claim C5: the drift confidence always equals min(100, 25 × number of
triggered reasons); in particular previous complexity 2 against current
complexity 4 (with unchanged validation presence) triggers exactly the
complexity reason, giving hasDrift = true and confidence 25. -/
theorem drift_confidence_formula :
    (∀ (current : CurrentAnalysis) (spec : StoredSpec),
      (compareWithSpec current spec).confidence =
        min 100 (25 * (compareWithSpec current spec).details.length)) ∧
    compareWithSpec
      { complexity := 4, hasValidation := false, hasReturn := true, lines := 10 }
      { complexity := 2, hasValidation := false } =
      { hasDrift := true
        details := ["Function complexity increased significantly"]
        confidence := 25 } := by
  constructor
  · intro current spec
    unfold compareWithSpec
    dsimp only
    rw [Nat.mul_comm]
  · decide

/-- Claim C6: whenever `compareWithSpec` reports drift, its list of reasons
is non-empty — hasDrift is set only by the two branches that also append a
reason. -/
theorem drift_implies_reasons (current : CurrentAnalysis) (spec : StoredSpec)
    (h : (compareWithSpec current spec).hasDrift = true) :
    (compareWithSpec current spec).details ≠ [] := by
  unfold compareWithSpec at *
  dsimp only at *
  split at h <;> split at h <;> simp_all

/-- Witness for C6 at a drift-triggering input (complexity 4 against
recorded complexity 2). -/
theorem drift_implies_reasons_witness :
    (compareWithSpec
      { complexity := 4, hasValidation := false, hasReturn := true, lines := 10 }
      { complexity := 2, hasValidation := false }).details ≠ [] :=
  drift_implies_reasons
    { complexity := 4, hasValidation := false, hasReturn := true, lines := 10 }
    { complexity := 2, hasValidation := false } (by decide)

/-- Claim C7: the control-flow extractor's complexity is 1 plus the counts
of guards, loops, and early returns (hence always at least 1), and its
degraded parse-failure result carries empty collections and complexity
exactly 1. -/
theorem extractor_complexity_bounds :
    (∀ n : Node,
      calculateComplexity n =
        1 + (extractConditionalGuards n).length + (extractLoops n).length +
          (extractEarlyReturns n).length ∧
      1 ≤ calculateComplexity n) ∧
    (∀ change : FunctionChange,
      (createBasicAnalysis change).ast.conditionalGuards = [] ∧
      (createBasicAnalysis change).ast.loops = [] ∧
      (createBasicAnalysis change).ast.earlyReturns = [] ∧
      (createBasicAnalysis change).ast.inputTypes = [] ∧
      (createBasicAnalysis change).ast.branching = [] ∧
      (createBasicAnalysis change).ast.complexity = 1) := by
  constructor
  · intro n
    refine ⟨rfl, ?_⟩
    simp only [calculateComplexity]
    omega
  · intro change
    exact ⟨rfl, rfl, rfl, rfl, rfl, rfl⟩

/-- Claim C8: the single hunk line `+function add(a,b){return a+b;}` yields
exactly one extracted function, named "add", whose derived change type is
"added"; in general the change type is "modified" when captured lines
contain both added and removed lines, "added" for add-only, "removed" for
remove-only, and "modified" otherwise. -/
theorem diff_scenarioB :
    ((extractFunctions "+function add(a,b){return a+b;}").map
        (fun f => f.name) = ["add"] ∧
     (extractFunctions "+function add(a,b){return a+b;}").map
        determineChangeType = ["added"]) ∧
    (∀ f : ExtractedFunction,
      determineChangeType f =
        if (splitLines f.body).any (fun line => strStartsWith line "+") then
          (if (splitLines f.body).any (fun line => strStartsWith line "-") then
            "modified" else "added")
        else if (splitLines f.body).any (fun line => strStartsWith line "-") then
          "removed" else "modified") := by
  refine ⟨⟨by decide, by decide⟩, ?_⟩
  intro f
  unfold determineChangeType
  dsimp only
  cases hA : (splitLines f.body).any (fun line => strStartsWith line "+") <;>
    cases hR : (splitLines f.body).any (fun line => strStartsWith line "-") <;>
      simp [hA, hR]

/-- Claim C9: requesting a spec suggestion twice for the same function key
is idempotent — the second request returns the very record the first one
produced, leaves the cache unchanged, and performs zero backend calls. -/
theorem spec_cache_idempotent (llm : AnalysisInput → SpecOut)
    (cache : List (String × Suggestion)) (analysis : AnalysisInput) :
    (generateSpecSuggestion llm
        (generateSpecSuggestion llm cache analysis).2.1 analysis).1 =
      (generateSpecSuggestion llm cache analysis).1 ∧
    (generateSpecSuggestion llm
        (generateSpecSuggestion llm cache analysis).2.1 analysis).2.1 =
      (generateSpecSuggestion llm cache analysis).2.1 ∧
    (generateSpecSuggestion llm
        (generateSpecSuggestion llm cache analysis).2.1 analysis).2.2 = 0 := by
  unfold generateSpecSuggestion
  cases h : List.lookup (analysis.filePath ++ ":" ++ analysis.functionName) cache with
  | some cached => simp [h]
  | none => simp [h, List.lookup]

/-- Claim C10: every record produced by the deterministic fallback has all
four list fields non-empty — each empty derived list is replaced by a fixed
one-element placeholder. -/
theorem mock_lists_nonempty (ctx : MockContext) :
    (generateMockSpec ctx).preconditions ≠ [] ∧
    (generateMockSpec ctx).postconditions ≠ [] ∧
    (generateMockSpec ctx).invariants ≠ [] ∧
    (generateMockSpec ctx).edgeCases ≠ [] := by
  unfold generateMockSpec
  refine ⟨?_, ?_, ?_, ?_⟩ <;> dsimp only <;> split <;>
    first
    | exact List.length_pos.mp (by assumption)
    | exact List.cons_ne_nil _ _
    | (split <;> simp_all [List.length_pos, List.map_eq_nil_iff])

end SpecSync
